import Mathlib

/-!
Shallow embedding of the inventory-api repository
(src/app/models/product.py, src/app/api/products.py, src/app/database.py).

Modelling conventions:
* `float` prices become `ℚ` (all the code does with a price is validate
  `gt=0`, store it and echo it back, so rationals are a faithful model of
  the comparisons involved).
* `datetime` timestamps become `Nat` ticks; `datetime.now(timezone.utc)`
  becomes an explicit `now : Nat` argument to each handler.
* The SQL store is a list of rows plus the autoincrement counter for the
  primary key.  Column nullability follows the field types of the
  `Product` table model in src/app/models/product.py: `name`, `quantity`
  and `price` are `NOT NULL`, `description` is nullable.  A commit that
  writes NULL into a NOT NULL column raises an IntegrityError which
  FastAPI surfaces as a 500 response; the transaction is not committed.
* Pydantic request-body validation happens before the handler runs and
  rejects with 422; it is the first step of each modelled endpoint.
-/

/-- A committed row of the `product` table
(`Product` in src/app/models/product.py). -/
structure Product where
  id : Nat
  name : String
  description : Option String
  quantity : Int
  price : ℚ
  created_at : Nat
  updated_at : Nat
deriving DecidableEq

/-- The in-memory Python-side row as SQLModel sees it between `setattr`
and `commit`: a table model skips validation, so the mutable attributes
can transiently hold `None` even where the column is `NOT NULL`. -/
structure PyProduct where
  id : Nat
  name : Option String
  description : Option String
  quantity : Option Int
  price : Option ℚ
  created_at : Nat
  updated_at : Nat
deriving DecidableEq

/-- View a committed row as the Python object loaded by `session.get`. -/
def Product.toPy (p : Product) : PyProduct :=
  ⟨p.id, some p.name, p.description, some p.quantity, some p.price,
   p.created_at, p.updated_at⟩

/-- `session.commit()` for a row: the database enforces the NOT NULL
constraints on `name`, `quantity` and `price` (their model fields are not
`Optional`), while `description` is nullable.  `none` means the commit
raised `IntegrityError`. -/
def commitRow (r : PyProduct) : Option Product :=
  match r.name, r.quantity, r.price with
  | some n, some q, some pr =>
      some ⟨r.id, n, r.description, q, pr, r.created_at, r.updated_at⟩
  | _, _, _ => none

/-- The database: the rows of the `product` table and the next
autoincrement primary key. -/
structure Store where
  products : List Product
  nextId : Nat
deriving DecidableEq

/-- `session.get(Product, pid)`: primary-key lookup. -/
def Store.get (s : Store) (pid : Nat) : Option Product :=
  s.products.find? (fun p => p.id == pid)

/-- Well-formedness of the autoincrement counter: every assigned primary
key is below `nextId`. -/
def Store.wf (s : Store) : Bool :=
  s.products.all (fun p => p.id < s.nextId)

/-- `name: str = Field(min_length=1, max_length=100)` (ProductBase). -/
def validName (n : String) : Bool :=
  1 ≤ n.length && n.length ≤ 100

/-- `description: Optional[str] = Field(default=None, max_length=500)`. -/
def validDescription (d : Option String) : Bool :=
  match d with
  | none => true
  | some s => s.length ≤ 500

/-- `quantity: int = Field(default=0, ge=0)`. -/
def validQuantity (q : Int) : Bool := 0 ≤ q

/-- `price: float = Field(gt=0)`. -/
def validPrice (p : ℚ) : Bool := 0 < p

/-- The field constraints of `ProductBase`, as a predicate on a stored
row (the store-level invariant of the spec's data model). -/
def Product.validRow (p : Product) : Bool :=
  validName p.name && validDescription p.description &&
    validQuantity p.quantity && validPrice p.price

/-- Every stored product satisfies the `ProductBase` constraints. -/
def Store.validRows (s : Store) : Bool :=
  s.products.all Product.validRow

/-- The JSON body of a POST /products/ request, before validation.
`quantity = none` and `description = none` mean the field was omitted
(the defaults of `ProductBase` then apply). -/
structure RawCreate where
  name : String
  description : Option String
  quantity : Option Int
  price : ℚ
deriving DecidableEq

/-- The validated `ProductCreate` model. -/
structure ProductCreate where
  name : String
  description : Option String
  quantity : Int
  price : ℚ
deriving DecidableEq

/-- Pydantic validation of a create body against `ProductCreate`
(= `ProductBase`): applies the defaults `quantity=0`,
`description=None`, then checks the field constraints.  `none` is a 422
validation failure. -/
def parseCreate (r : RawCreate) : Option ProductCreate :=
  let q := r.quantity.getD 0
  if validName r.name && validDescription r.description &&
      validQuantity q && validPrice r.price then
    some ⟨r.name, r.description, q, r.price⟩
  else
    none

/-- The JSON body of a PUT /products/{id} request, as parsed into
`ProductUpdate`: for each field, the outer `Option` records whether the
field was present in the body (`exclude_unset` semantics) and the inner
`Option` records an explicit JSON `null` (every `ProductUpdate` field is
`Optional`, so Pydantic accepts `null`). -/
structure ProductUpdate where
  name : Option (Option String)
  description : Option (Option String)
  quantity : Option (Option Int)
  price : Option (Option ℚ)
deriving DecidableEq

/-- Pydantic validation of an update body: each constraint of
`ProductUpdate` applies only to a present, non-null value; a present
`null` passes because every field's type is `Optional`. -/
def validUpdate (u : ProductUpdate) : Bool :=
  (match u.name with | some (some n) => validName n | _ => true) &&
  (match u.description with | some (some d) => d.length ≤ 500 | _ => true) &&
  (match u.quantity with | some (some q) => validQuantity q | _ => true) &&
  (match u.price with | some (some p) => validPrice p | _ => true)

/-- The `for field, value in update_data.items(): setattr(product, field,
value)` loop of `update_product`: each field present in the body
(explicit `null` included, since `exclude_unset` keeps it) overwrites the
attribute; absent fields are untouched. -/
def applyUpdate (u : ProductUpdate) (r : PyProduct) : PyProduct :=
  { r with
    name := u.name.getD r.name
    description := u.description.getD r.description
    quantity := u.quantity.getD r.quantity
    price := u.price.getD r.price }

/-- An HTTP response: status code, optional entity body (the
`ProductRead` representation), optional error detail. -/
structure Response where
  status : Nat
  body : Option Product
  detail : Option String
deriving DecidableEq

/-- The 404 response of the handlers:
`Product with id {product_id} not found`. -/
def notFoundResponse (pid : Nat) : Response :=
  ⟨404, none, some ("Product with id " ++ toString pid ++ " not found")⟩

/-- POST /products/ (`create_product` in src/app/api/products.py):
validate the body, build a `Product` from the validated fields with a
server-assigned id and `created_at = updated_at = now`, insert, return
201 with the representation. -/
def create_product (now : Nat) (r : RawCreate) (s : Store) :
    Response × Store :=
  match parseCreate r with
  | none => (⟨422, none, none⟩, s)
  | some c =>
      let p : Product :=
        ⟨s.nextId, c.name, c.description, c.quantity, c.price, now, now⟩
      (⟨201, some p, none⟩, ⟨s.products ++ [p], s.nextId + 1⟩)

/-- GET /products/{id} (`get_product`): 404 if missing, else 200 with
the entity. -/
def get_product (pid : Nat) (s : Store) : Response × Store :=
  match s.get pid with
  | none => (notFoundResponse pid, s)
  | some p => (⟨200, some p, none⟩, s)

/-- PUT /products/{id} (`update_product`): validate the body (422),
look up the row (404), apply `exclude_unset` merge, refresh
`updated_at`, commit.  A commit that violates a NOT NULL column raises
IntegrityError (500) and leaves the store unchanged; otherwise 200 with
the updated representation. -/
def update_product (now : Nat) (pid : Nat) (u : ProductUpdate) (s : Store) :
    Response × Store :=
  if validUpdate u then
    match s.get pid with
    | none => (notFoundResponse pid, s)
    | some p =>
        let r := applyUpdate u p.toPy
        let r := { r with updated_at := now }
        match commitRow r with
        | none => (⟨500, none, none⟩, s)
        | some p' =>
            (⟨200, some p', none⟩,
             ⟨s.products.map (fun q => if q.id == pid then p' else q),
              s.nextId⟩)
  else
    (⟨422, none, none⟩, s)

/-- DELETE /products/{id} (`delete_product`): 404 if missing, else
remove the row and return 204 with no body. -/
def delete_product (pid : Nat) (s : Store) : Response × Store :=
  match s.get pid with
  | none => (notFoundResponse pid, s)
  | some _ =>
      (⟨204, none, none⟩,
       ⟨s.products.filter (fun q => q.id != pid), s.nextId⟩)

/-- A sample committed row used to instantiate hypotheses concretely. -/
def wProduct : Product := ⟨1, "Widget", some "A widget", 5, 10, 0, 0⟩

/-- A sample store holding `wProduct` under id 1. -/
def wStore : Store := ⟨[wProduct], 2⟩

/-- The value an update assigns to a scalar attribute: the body's value
when the field is present (and non-null), the prior value otherwise. -/
def setOr {α : Type} (f : Option (Option α)) (old : α) : α :=
  (f.getD (some old)).getD old

theorem Store.get_mem {s : Store} {pid : Nat} {p : Product}
    (h : s.get pid = some p) : p ∈ s.products :=
  List.mem_of_find?_eq_some h

theorem Store.get_id {s : Store} {pid : Nat} {p : Product}
    (h : s.get pid = some p) : p.id = pid := by
  simpa using List.find?_some h

theorem Store.validRow_of_get {s : Store} {pid : Nat} {p : Product}
    (hs : s.validRows = true) (h : s.get pid = some p) :
    p.validRow = true := by
  have hm := Store.get_mem h
  exact List.all_eq_true.mp hs p hm

theorem commitRow_id {r : PyProduct} {p : Product}
    (h : commitRow r = some p) : p.id = r.id := by
  unfold commitRow at h
  rcases hn : r.name with _ | n <;> rcases hq : r.quantity with _ | q <;>
    rcases hp : r.price with _ | pr <;> simp_all
  exact (congrArg Product.id h).symm

theorem find?_map_set (l : List Product) (pid : Nat) (p' : Product)
    (hp' : p'.id = pid) (p : Product)
    (h : l.find? (fun q => q.id == pid) = some p) :
    (l.map (fun q => if q.id == pid then p' else q)).find?
      (fun q => q.id == pid) = some p' := by
  induction l with
  | nil => simp at h
  | cons a l ih =>
      by_cases ha : a.id = pid
      · simp [List.find?_cons, ha, hp']
      · simp only [List.find?_cons_of_neg, ha, List.map_cons] at h ⊢
        have ha' : (a.id == pid) = false := by simp [ha]
        simp only [ha', if_false]
        rw [List.find?_cons_of_neg _ (by simp [ha])] at h
        rw [List.find?_cons_of_neg _ (by simp [ha])]
        exact ih h

theorem find?_filter_self (l : List Product) (pid : Nat) :
    (l.filter (fun q => q.id != pid)).find? (fun q => q.id == pid) = none := by
  rw [List.find?_eq_none]
  intro x hx
  have := (List.mem_filter.mp hx).2
  simp_all

theorem find?_filter_other (l : List Product) (pid j : Nat) (hj : j ≠ pid) :
    (l.filter (fun q => q.id != pid)).find? (fun q => q.id == j) =
      l.find? (fun q => q.id == j) := by
  rw [List.find?_filter]
  congr 1
  funext a
  by_cases ha : a.id = j
  · subst ha
    simp [hj]
  · simp [ha]

theorem parseCreate_fields {r : RawCreate} {c : ProductCreate}
    (h : parseCreate r = some c) :
    c.name = r.name ∧ c.description = r.description ∧
    c.quantity = r.quantity.getD 0 ∧ c.price = r.price ∧
    validName c.name = true ∧ validDescription c.description = true ∧
    validQuantity c.quantity = true ∧ validPrice c.price = true := by
  simp only [parseCreate] at h
  split at h
  · rename_i hcond
    simp only [Option.some.injEq] at h
    subst h
    simp_all
  · simp at h

theorem commit_forces {now : Nat} {u : ProductUpdate} {p p' : Product}
    (hc : commitRow { applyUpdate u p.toPy with updated_at := now } = some p') :
    u.name ≠ some none ∧ u.quantity ≠ some none ∧ u.price ≠ some none := by
  rcases u with ⟨un, ud, uq, up⟩
  rcases un with _ | (_ | n) <;> rcases uq with _ | (_ | q) <;>
    rcases up with _ | (_ | pr) <;>
      simp_all [commitRow, applyUpdate, Product.toPy]

theorem commitRow_merge (now : Nat) (u : ProductUpdate) (p : Product)
    (hn : u.name ≠ some none) (hq : u.quantity ≠ some none)
    (hp : u.price ≠ some none) :
    commitRow { applyUpdate u p.toPy with updated_at := now } =
      some ⟨p.id, setOr u.name p.name, u.description.getD p.description,
            setOr u.quantity p.quantity, setOr u.price p.price,
            p.created_at, now⟩ := by
  rcases u with ⟨un, ud, uq, up⟩
  rcases un with _ | (_ | n) <;> rcases uq with _ | (_ | q) <;>
    rcases up with _ | (_ | pr) <;>
      simp_all [commitRow, applyUpdate, Product.toPy, setOr]

theorem merged_validRow {now : Nat} {u : ProductUpdate} {p : Product}
    (hu : validUpdate u = true) (hp : p.validRow = true)
    (hn : u.name ≠ some none) (hq : u.quantity ≠ some none)
    (hpr : u.price ≠ some none) :
    (⟨p.id, setOr u.name p.name, u.description.getD p.description,
      setOr u.quantity p.quantity, setOr u.price p.price,
      p.created_at, now⟩ : Product).validRow = true := by
  rcases u with ⟨un, ud, uq, up⟩
  rcases un with _ | (_ | n) <;> rcases ud with _ | (_ | d) <;>
    rcases uq with _ | (_ | q) <;> rcases up with _ | (_ | pr) <;>
      simp_all [validUpdate, Product.validRow, setOr, validDescription]

/-- C1: every stored product satisfies the field constraints (non-empty
name of at most 100 characters, description absent or at most 500
characters, non-negative quantity, strictly positive price); this
store-level invariant holds after `create_product` and is preserved by
every `update_product` call, including calls whose body sets a field to
an explicit null (those fail the NOT NULL commit and leave the store
unchanged). -/
theorem C1_store_invariant
    (now pid : Nat) (r : RawCreate) (u : ProductUpdate) (s : Store)
    (hs : s.validRows = true) :
    (create_product now r s).2.validRows = true ∧
    (update_product now pid u s).2.validRows = true := by
  constructor
  · unfold create_product
    cases hp : parseCreate r with
    | none => simpa using hs
    | some c =>
        obtain ⟨-, -, -, -, h1, h2, h3, h4⟩ := parseCreate_fields hp
        simp only [Store.validRows] at hs ⊢
        simp [List.all_append, hs, Product.validRow, h1, h2, h3, h4]
  · by_cases hu : validUpdate u = true
    · cases hg : s.get pid with
      | none => simp [update_product, hu, hg, hs]
      | some p =>
          have hpv : p.validRow = true := Store.validRow_of_get hs hg
          cases hc : commitRow { applyUpdate u p.toPy with updated_at := now } with
          | none => simp [update_product, hu, hg, hc, hs]
          | some p' =>
              obtain ⟨hn, hq, hpr⟩ := commit_forces hc
              have hc' := hc
              rw [commitRow_merge now u p hn hq hpr] at hc'
              have hp'v : p'.validRow = true := by
                cases hc'
                exact merged_validRow hu hpv hn hq hpr
              simp only [update_product, hu, if_true, hg, hc]
              simp only [Store.validRows, List.all_eq_true] at hs ⊢
              intro x hx
              obtain ⟨q, hqm, rfl⟩ := List.mem_map.mp hx
              by_cases hqid : (q.id == pid) = true <;>
                simp [hqid, hp'v, hs q hqm]
    · simp only [Bool.not_eq_true] at hu
      simp [update_product, hu, hs]

/-- Witness for C1 at a concrete store, create body and an update body
that sets `name` to explicit null. -/
theorem C1_store_invariant_witness :
    (create_product 3 ⟨"Lamp", none, none, 10⟩ wStore).2.validRows = true ∧
    (update_product 3 1 ⟨some none, none, none, none⟩ wStore).2.validRows = true :=
  C1_store_invariant 3 1 ⟨"Lamp", none, none, 10⟩
    ⟨some none, none, none, none⟩ wStore (by decide)

/-- C2 counterexample: with product id 1 present, a PUT body that sets
`name` to an explicit JSON null passes `ProductUpdate` validation, is
kept by `exclude_unset`, is written by `setattr`, and then violates the
NOT NULL `name` column at commit: the response is a 500 error, not the
200 the claim promises for every update request. -/
theorem C2_counterexample :
    wStore.get 1 = some wProduct ∧
    (update_product 7 1 ⟨some none, none, none, none⟩ wStore).1.status = 500 ∧
    (update_product 7 1 ⟨some none, none, none, none⟩ wStore).1.status ≠ 200 := by
  decide

/-- C2 (amended): for an existing id and an update body that does not
set `name`, `quantity` or `price` to explicit null, issued when the
clock has advanced past the stored `updated_at`, the update changes
exactly the present fields, leaves absent fields at their prior values,
sets `updated_at` to the current time (different from and not earlier
than its prior value), and responds 200 with the updated
representation. -/
theorem C2_partial_update
    (now pid : Nat) (u : ProductUpdate) (s : Store) (p : Product)
    (hg : s.get pid = some p) (hu : validUpdate u = true)
    (hn : u.name ≠ some none) (hq : u.quantity ≠ some none)
    (hpr : u.price ≠ some none) (ht : p.updated_at < now) :
    ∃ p' : Product,
      update_product now pid u s =
        (⟨200, some p', none⟩,
         ⟨s.products.map (fun q => if q.id == pid then p' else q),
          s.nextId⟩) ∧
      (update_product now pid u s).2.get pid = some p' ∧
      p'.id = p.id ∧
      p'.name = setOr u.name p.name ∧
      p'.description = u.description.getD p.description ∧
      p'.quantity = setOr u.quantity p.quantity ∧
      p'.price = setOr u.price p.price ∧
      p'.created_at = p.created_at ∧
      p'.updated_at = now ∧
      p'.updated_at ≠ p.updated_at ∧ p.updated_at ≤ p'.updated_at := by
  have hc := commitRow_merge now u p hn hq hpr
  refine ⟨⟨p.id, setOr u.name p.name, u.description.getD p.description,
      setOr u.quantity p.quantity, setOr u.price p.price,
      p.created_at, now⟩, ?_, ?_, rfl, rfl, rfl, rfl, rfl, rfl, rfl,
      ?_, ?_⟩
  · simp [update_product, hu, hg, hc]
  · have h1 : update_product now pid u s =
        (⟨200, some ⟨p.id, setOr u.name p.name,
            u.description.getD p.description, setOr u.quantity p.quantity,
            setOr u.price p.price, p.created_at, now⟩, none⟩,
         ⟨s.products.map (fun q => if q.id == pid then
              ⟨p.id, setOr u.name p.name, u.description.getD p.description,
               setOr u.quantity p.quantity, setOr u.price p.price,
               p.created_at, now⟩ else q), s.nextId⟩) := by
      simp [update_product, hu, hg, hc]
    rw [h1]
    have hid0 : p.id = pid := Store.get_id hg
    exact find?_map_set s.products pid _ hid0 p hg
  · simpa using Nat.ne_of_gt ht
  · exact Nat.le_of_lt ht

/-- Witness for the amended C2 at a concrete store and update body that
sets `name` and `quantity` and omits `description` and `price`. -/
theorem C2_partial_update_witness :
    ∃ p' : Product,
      update_product 7 1 ⟨some (some "Gadget"), none, some (some 9), none⟩
          wStore =
        (⟨200, some p', none⟩,
         ⟨wStore.products.map (fun q => if q.id == 1 then p' else q),
          wStore.nextId⟩) ∧
      (update_product 7 1 ⟨some (some "Gadget"), none, some (some 9), none⟩
          wStore).2.get 1 = some p' ∧
      p'.id = wProduct.id ∧
      p'.name = setOr (some (some "Gadget")) wProduct.name ∧
      p'.description =
        (none : Option (Option String)).getD wProduct.description ∧
      p'.quantity = setOr (some (some 9)) wProduct.quantity ∧
      p'.price = setOr (none : Option (Option ℚ)) wProduct.price ∧
      p'.created_at = wProduct.created_at ∧
      p'.updated_at = 7 ∧
      p'.updated_at ≠ wProduct.updated_at ∧
      wProduct.updated_at ≤ p'.updated_at :=
  C2_partial_update 7 1 ⟨some (some "Gadget"), none, some (some 9), none⟩
    wStore wProduct (by decide) (by decide) (by decide) (by decide)
    (by decide) (by decide)

/-- C3: a create body with an empty name, a non-positive price, or a
negative quantity fails `ProductCreate` validation, so the request is
rejected with 422 before any storage operation and the store is
returned unchanged. -/
theorem C3_create_validation
    (now : Nat) (r : RawCreate) (s : Store)
    (h : r.name = "" ∨ r.price ≤ 0 ∨ ∃ q, r.quantity = some q ∧ q < 0) :
    create_product now r s = (⟨422, none, none⟩, s) := by
  have hp : parseCreate r = none := by
    simp only [parseCreate]
    rcases h with h | h | ⟨q, hq, hq0⟩
    · simp [h, validName]
    · have hv : validPrice r.price = false := by
        simp only [validPrice, decide_eq_false_iff_not]
        exact not_lt.mpr h
      simp [hv]
    · have hv : validQuantity (r.quantity.getD 0) = false := by
        simp only [hq, Option.getD_some, validQuantity,
          decide_eq_false_iff_not]
        omega
      simp [hv]
  simp [create_product, hp]

/-- Witness for C3 with an empty name. -/
theorem C3_create_validation_witness :
    create_product 3 ⟨"", none, none, 5⟩ wStore = (⟨422, none, none⟩, wStore) :=
  C3_create_validation 3 ⟨"", none, none, 5⟩ wStore (Or.inl rfl)

/-- C4: for an id absent from the store, `get_product`,
`update_product` (with a body that passes validation) and
`delete_product` all return a 404 response whose detail message names
the missing id, and each leaves the store unchanged. -/
theorem C4_missing_id
    (now pid : Nat) (u : ProductUpdate) (s : Store)
    (hg : s.get pid = none) (hu : validUpdate u = true) :
    get_product pid s = (notFoundResponse pid, s) ∧
    update_product now pid u s = (notFoundResponse pid, s) ∧
    delete_product pid s = (notFoundResponse pid, s) ∧
    (notFoundResponse pid).status = 404 ∧
    (notFoundResponse pid).detail =
      some ("Product with id " ++ toString pid ++ " not found") := by
  refine ⟨?_, ?_, ?_, rfl, rfl⟩ <;>
    simp [get_product, update_product, delete_product, hg, hu]

/-- Witness for C4 at an absent id on a concrete store. -/
theorem C4_missing_id_witness :
    get_product 999 wStore = (notFoundResponse 999, wStore) ∧
    update_product 7 999 ⟨some (some "New"), none, none, none⟩ wStore =
      (notFoundResponse 999, wStore) ∧
    delete_product 999 wStore = (notFoundResponse 999, wStore) ∧
    (notFoundResponse 999).status = 404 ∧
    (notFoundResponse 999).detail =
      some ("Product with id " ++ toString 999 ++ " not found") :=
  C4_missing_id 7 999 ⟨some (some "New"), none, none, none⟩ wStore
    (by decide) (by decide)

theorem wf_find?_nextId {s : Store} (hwf : s.wf = true) :
    s.products.find? (fun q => q.id == s.nextId) = none := by
  rw [List.find?_eq_none]
  intro x hx
  have hx' := List.all_eq_true.mp hwf x hx
  simp only [decide_eq_true_eq] at hx'
  simp only [beq_iff_eq]
  omega

/-- C5: a create request whose fields pass validation returns 201 with
a representation echoing the submitted name, description, quantity and
price together with the server-assigned id `s.nextId` and the creation
and update timestamps, and the created row is stored under that id. -/
theorem C5_create_valid
    (now : Nat) (r : RawCreate) (s : Store) (hwf : s.wf = true)
    (hn : validName r.name = true) (hd : validDescription r.description = true)
    (hq : validQuantity (r.quantity.getD 0) = true)
    (hp : validPrice r.price = true) :
    create_product now r s =
      (⟨201, some ⟨s.nextId, r.name, r.description, r.quantity.getD 0,
          r.price, now, now⟩, none⟩,
       ⟨s.products ++ [⟨s.nextId, r.name, r.description, r.quantity.getD 0,
          r.price, now, now⟩], s.nextId + 1⟩) ∧
    (create_product now r s).2.get s.nextId =
      some ⟨s.nextId, r.name, r.description, r.quantity.getD 0,
        r.price, now, now⟩ := by
  have hpc : parseCreate r =
      some ⟨r.name, r.description, r.quantity.getD 0, r.price⟩ := by
    simp [parseCreate, hn, hd, hq, hp]
  have h1 : create_product now r s =
      (⟨201, some ⟨s.nextId, r.name, r.description, r.quantity.getD 0,
          r.price, now, now⟩, none⟩,
       ⟨s.products ++ [⟨s.nextId, r.name, r.description, r.quantity.getD 0,
          r.price, now, now⟩], s.nextId + 1⟩) := by
    simp [create_product, hpc]
  refine ⟨h1, ?_⟩
  rw [h1]
  simp only [Store.get, List.find?_append, wf_find?_nextId hwf,
    Option.none_or]
  simp [List.find?_cons]

/-- Witness for C5 at a concrete create body. -/
theorem C5_create_valid_witness :
    create_product 4 ⟨"Chair", some "Oak", some 3, 25⟩ wStore =
      (⟨201, some ⟨wStore.nextId, "Chair", some "Oak",
          (some (3 : Int)).getD 0, 25, 4, 4⟩, none⟩,
       ⟨wStore.products ++ [⟨wStore.nextId, "Chair", some "Oak",
          (some (3 : Int)).getD 0, 25, 4, 4⟩], wStore.nextId + 1⟩) ∧
    (create_product 4 ⟨"Chair", some "Oak", some 3, 25⟩ wStore).2.get
        wStore.nextId =
      some ⟨wStore.nextId, "Chair", some "Oak", (some (3 : Int)).getD 0,
        25, 4, 4⟩ :=
  C5_create_valid 4 ⟨"Chair", some "Oak", some 3, 25⟩ wStore
    (by decide) (by decide) (by decide) (by decide) (by decide)

/-- C6: a create request that submits only a valid name and price (with
`description` and `quantity` omitted) is created with the documented
defaults: quantity 0 and null description, both in the stored row and
in the returned representation. -/
theorem C6_defaults
    (now : Nat) (n : String) (pr : ℚ) (s : Store)
    (hn : validName n = true) (hp : validPrice pr = true) :
    ∃ p : Product,
      create_product now ⟨n, none, none, pr⟩ s =
        (⟨201, some p, none⟩, ⟨s.products ++ [p], s.nextId + 1⟩) ∧
      p.quantity = 0 ∧ p.description = none := by
  refine ⟨⟨s.nextId, n, none, 0, pr, now, now⟩, ?_, rfl, rfl⟩
  simp [create_product, parseCreate, hn, hp, validDescription, validQuantity]

/-- Witness for C6 at a concrete minimal create body. -/
theorem C6_defaults_witness :
    ∃ p : Product,
      create_product 5 ⟨"Pen", none, none, 2⟩ wStore =
        (⟨201, some p, none⟩,
         ⟨wStore.products ++ [p], wStore.nextId + 1⟩) ∧
      p.quantity = 0 ∧ p.description = none :=
  C6_defaults 5 "Pen" 2 wStore (by decide) (by decide)

/-- C7: the identifier assigned at creation is immutable: after any
`update_product` call on an existing id (whatever the body, including
bodies the commit rejects), the entity stored under that id keeps its
prior id. -/
theorem C7_id_immutable
    (now pid : Nat) (u : ProductUpdate) (s : Store) (p : Product)
    (hg : s.get pid = some p) :
    ∃ p' : Product, (update_product now pid u s).2.get pid = some p' ∧
      p'.id = p.id := by
  by_cases hu : validUpdate u = true
  · cases hc : commitRow { applyUpdate u p.toPy with updated_at := now } with
    | none =>
        refine ⟨p, ?_, rfl⟩
        simp [update_product, hu, hg, hc]
    | some p' =>
        have hid : p'.id = p.id := commitRow_id hc
        refine ⟨p', ?_, hid⟩
        have h1 : (update_product now pid u s).2 =
            ⟨s.products.map (fun q => if q.id == pid then p' else q),
             s.nextId⟩ := by
          simp [update_product, hu, hg, hc]
        rw [h1]
        have hid0 : p'.id = pid := by rw [hid]; exact Store.get_id hg
        exact find?_map_set s.products pid p' hid0 p hg
  · refine ⟨p, ?_, rfl⟩
    simp [update_product, hu, hg]

/-- Witness for C7 with an update body changing the name. -/
theorem C7_id_immutable_witness :
    ∃ p' : Product,
      (update_product 7 1 ⟨some (some "Desk"), none, none, none⟩
          wStore).2.get 1 = some p' ∧
      p'.id = wProduct.id :=
  C7_id_immutable 7 1 ⟨some (some "Desk"), none, none, none⟩ wStore
    wProduct (by decide)

/-- C8: deleting an existing id returns 204 with no body, removes
exactly the row with that id (lookups at every other id are unchanged),
and a subsequent `get_product` for the same id returns the 404
not-found response. -/
theorem C8_delete
    (pid : Nat) (s : Store) (p : Product) (hg : s.get pid = some p) :
    delete_product pid s =
      (⟨204, none, none⟩,
       ⟨s.products.filter (fun q => q.id != pid), s.nextId⟩) ∧
    (delete_product pid s).2.get pid = none ∧
    (∀ j, j ≠ pid → (delete_product pid s).2.get j = s.get j) ∧
    (get_product pid (delete_product pid s).2).1 = notFoundResponse pid := by
  have h1 : delete_product pid s =
      (⟨204, none, none⟩,
       ⟨s.products.filter (fun q => q.id != pid), s.nextId⟩) := by
    simp [delete_product, hg]
  refine ⟨h1, ?_, ?_, ?_⟩
  · rw [h1]
    exact find?_filter_self s.products pid
  · intro j hj
    rw [h1]
    exact find?_filter_other s.products pid j hj
  · rw [h1]
    simp [get_product, Store.get, find?_filter_self s.products pid]

/-- Witness for C8 at the concrete store. -/
theorem C8_delete_witness :
    delete_product 1 wStore =
      (⟨204, none, none⟩,
       ⟨wStore.products.filter (fun q => q.id != 1), wStore.nextId⟩) ∧
    (delete_product 1 wStore).2.get 1 = none ∧
    (∀ j, j ≠ 1 → (delete_product 1 wStore).2.get j = wStore.get j) ∧
    (get_product 1 (delete_product 1 wStore).2).1 = notFoundResponse 1 :=
  C8_delete 1 wStore wProduct (by decide)

/-- C9: an update whose body sets no fields at all succeeds with 200,
leaves name, description, quantity, price, id and created_at unchanged,
and still rewrites updated_at to the current time. -/
theorem C9_empty_update
    (now pid : Nat) (s : Store) (p : Product) (hg : s.get pid = some p) :
    update_product now pid ⟨none, none, none, none⟩ s =
      (⟨200, some { p with updated_at := now }, none⟩,
       ⟨s.products.map (fun q => if q.id == pid then
            { p with updated_at := now } else q), s.nextId⟩) ∧
    (update_product now pid ⟨none, none, none, none⟩ s).2.get pid =
      some { p with updated_at := now } ∧
    ({ p with updated_at := now } : Product).name = p.name ∧
    ({ p with updated_at := now } : Product).description = p.description ∧
    ({ p with updated_at := now } : Product).quantity = p.quantity ∧
    ({ p with updated_at := now } : Product).price = p.price ∧
    ({ p with updated_at := now } : Product).id = p.id ∧
    ({ p with updated_at := now } : Product).created_at = p.created_at ∧
    ({ p with updated_at := now } : Product).updated_at = now := by
  have hu : validUpdate ⟨none, none, none, none⟩ = true := rfl
  have hc : commitRow
      { applyUpdate ⟨none, none, none, none⟩ p.toPy with updated_at := now } =
      some { p with updated_at := now } := rfl
  have h1 : update_product now pid ⟨none, none, none, none⟩ s =
      (⟨200, some { p with updated_at := now }, none⟩,
       ⟨s.products.map (fun q => if q.id == pid then
            { p with updated_at := now } else q), s.nextId⟩) := by
    simp [update_product, hu, hg, hc]
  refine ⟨h1, ?_, rfl, rfl, rfl, rfl, rfl, rfl, rfl⟩
  rw [h1]
  have hid0 : p.id = pid := Store.get_id hg
  exact find?_map_set s.products pid _ hid0 p hg

/-- Witness for C9 at the concrete store. -/
theorem C9_empty_update_witness :
    update_product 7 1 ⟨none, none, none, none⟩ wStore =
      (⟨200, some { wProduct with updated_at := 7 }, none⟩,
       ⟨wStore.products.map (fun q => if q.id == 1 then
            { wProduct with updated_at := 7 } else q), wStore.nextId⟩) ∧
    (update_product 7 1 ⟨none, none, none, none⟩ wStore).2.get 1 =
      some { wProduct with updated_at := 7 } ∧
    ({ wProduct with updated_at := 7 } : Product).name = wProduct.name ∧
    ({ wProduct with updated_at := 7 } : Product).description =
      wProduct.description ∧
    ({ wProduct with updated_at := 7 } : Product).quantity =
      wProduct.quantity ∧
    ({ wProduct with updated_at := 7 } : Product).price = wProduct.price ∧
    ({ wProduct with updated_at := 7 } : Product).id = wProduct.id ∧
    ({ wProduct with updated_at := 7 } : Product).created_at =
      wProduct.created_at ∧
    ({ wProduct with updated_at := 7 } : Product).updated_at = 7 :=
  C9_empty_update 7 1 wStore wProduct (by decide)

/-- C10: an update that explicitly sets `description` to null succeeds
and stores a null description, while an update that omits `description`
leaves the stored description unchanged: the handler distinguishes
explicit null from omission via `exclude_unset`. -/
theorem C10_null_vs_omitted
    (now pid : Nat) (s : Store) (p : Product) (hg : s.get pid = some p) :
    update_product now pid ⟨none, some none, none, none⟩ s =
      (⟨200, some { p with description := none, updated_at := now }, none⟩,
       ⟨s.products.map (fun q => if q.id == pid then
            { p with description := none, updated_at := now } else q),
        s.nextId⟩) ∧
    (update_product now pid ⟨none, some none, none, none⟩ s).2.get pid =
      some { p with description := none, updated_at := now } ∧
    update_product now pid ⟨none, none, none, none⟩ s =
      (⟨200, some { p with updated_at := now }, none⟩,
       ⟨s.products.map (fun q => if q.id == pid then
            { p with updated_at := now } else q), s.nextId⟩) ∧
    (update_product now pid ⟨none, none, none, none⟩ s).2.get pid =
      some { p with updated_at := now } ∧
    ({ p with description := none, updated_at := now } :
        Product).description = none ∧
    ({ p with updated_at := now } : Product).description =
      p.description := by
  have hid0 : p.id = pid := Store.get_id hg
  have hcN : commitRow
      { applyUpdate ⟨none, some none, none, none⟩ p.toPy with
        updated_at := now } =
      some { p with description := none, updated_at := now } := rfl
  have hcO : commitRow
      { applyUpdate ⟨none, none, none, none⟩ p.toPy with
        updated_at := now } =
      some { p with updated_at := now } := rfl
  have h1 : update_product now pid ⟨none, some none, none, none⟩ s =
      (⟨200, some { p with description := none, updated_at := now }, none⟩,
       ⟨s.products.map (fun q => if q.id == pid then
            { p with description := none, updated_at := now } else q),
        s.nextId⟩) := by
    simp [update_product, hg, hcN, validUpdate]
  have h2 : update_product now pid ⟨none, none, none, none⟩ s =
      (⟨200, some { p with updated_at := now }, none⟩,
       ⟨s.products.map (fun q => if q.id == pid then
            { p with updated_at := now } else q), s.nextId⟩) := by
    simp [update_product, hg, hcO, validUpdate]
  refine ⟨h1, ?_, h2, ?_, rfl, rfl⟩
  · rw [h1]
    exact find?_map_set s.products pid _ hid0 p hg
  · rw [h2]
    exact find?_map_set s.products pid _ hid0 p hg

/-- Witness for C10 at the concrete store, whose product has a non-null
description. -/
theorem C10_null_vs_omitted_witness :
    update_product 7 1 ⟨none, some none, none, none⟩ wStore =
      (⟨200, some { wProduct with description := none, updated_at := 7 },
         none⟩,
       ⟨wStore.products.map (fun q => if q.id == 1 then
            { wProduct with description := none, updated_at := 7 } else q),
        wStore.nextId⟩) ∧
    (update_product 7 1 ⟨none, some none, none, none⟩ wStore).2.get 1 =
      some { wProduct with description := none, updated_at := 7 } ∧
    update_product 7 1 ⟨none, none, none, none⟩ wStore =
      (⟨200, some { wProduct with updated_at := 7 }, none⟩,
       ⟨wStore.products.map (fun q => if q.id == 1 then
            { wProduct with updated_at := 7 } else q), wStore.nextId⟩) ∧
    (update_product 7 1 ⟨none, none, none, none⟩ wStore).2.get 1 =
      some { wProduct with updated_at := 7 } ∧
    ({ wProduct with description := none, updated_at := 7 } :
        Product).description = none ∧
    ({ wProduct with updated_at := 7 } : Product).description =
      wProduct.description :=
  C10_null_vs_omitted 7 1 wStore wProduct (by decide)
